import Mathlib

/-!
Verification of the banana-detection post-processing pipeline
(`backend/ml/banana_detection/inference.py`).

Shallow embedding conventions:
* Python floats are modelled as rationals (`ℚ`); `np.mean` of a nonempty
  list is sum divided by length.
* Python dicts built by `d.get(k, default)` / `d[k] = v` are modelled as
  insertion-ordered association lists with lookup `dictGetD` and update
  `dictSet` (updating an existing key keeps its position, a new key is
  appended — CPython dict semantics).
* A fallible step (a Python `try` block body that may raise) is modelled
  with `Except String`; catching an exception is matching on `.error`.
* Wall-clock quantities (`time.time()` differences, timestamps) are
  opaque parameters.
-/

namespace SagiTech

/-- One detection record (`BananaDetection` dataclass). -/
structure BananaDetection where
  class_id : Int
  class_name : String
  confidence : ℚ
  polygon : List (ℚ × ℚ)
  x1 : ℚ
  y1 : ℚ
  x2 : ℚ
  y2 : ℚ
  area : ℚ
  quality_score : ℚ
  timestamp : String
deriving Repr, DecidableEq

/-- The `quality_thresholds` sub-config, after each `.get(key, default)`
has been resolved (the code reads each key with a fixed default, so a
missing key behaves exactly like the default value). -/
structure QualityThresholds where
  min_confidence : ℚ
  min_polygon_area : ℚ
  max_aspect : ℚ
deriving Repr, DecidableEq

/-- Defaults used both in `_get_default_config` and as the `.get` fallbacks
inside `validate_detection_quality`. -/
def defaultThresholds : QualityThresholds :=
  { min_confidence := 3/4, min_polygon_area := 100, max_aspect := 5 }

/-- `QualityValidator.validate_detection_quality`: accumulates the
human-readable issue list exactly as the source appends to `issues`, and
returns `(len(issues) == 0, issues)`. -/
def validate_detection_quality (t : QualityThresholds) (d : BananaDetection) :
    Bool × List String :=
  let issues : List String := []
  let issues := if d.confidence < t.min_confidence
    then issues ++ ["Low confidence"] else issues
  let issues := if d.polygon.length < 3
    then issues ++ ["Invalid polygon: Less than 3 vertices"] else issues
  let issues := if d.area < t.min_polygon_area
    then issues ++ ["Small detection area"] else issues
  let width := d.x2 - d.x1
  let height := d.y2 - d.y1
  let aspect := if height > 0 then width / height else 0
  let issues := if aspect > t.max_aspect
    then issues ++ ["Extreme aspect ratio"] else issues
  (issues.length == 0, issues)

/-- `QualityValidator.calculate_quality_score`: mean of the three
sub-scores, each capped above at 1 by `min(·, 1.0)`. -/
def calculate_quality_score (d : BananaDetection) : ℚ :=
  let confidence_score := min d.confidence 1
  let area_score := min (d.area / 10000) 1
  let polygon_score := min ((d.polygon.length : ℚ) / 8) 1
  (confidence_score + area_score + polygon_score) / 3

/-- `BananaDetector._calculate_polygon_area`: shoelace formula over the
index loop `for i in range(n): j = (i + 1) % n`. -/
def calculate_polygon_area (polygon : List (ℚ × ℚ)) : ℚ :=
  if polygon.length < 3 then 0
  else
    let n := polygon.length
    let area := (List.range n).foldl
      (fun area i =>
        let j := (i + 1) % n
        area + (polygon.getD i (0, 0)).1 * (polygon.getD j (0, 0)).2
             - (polygon.getD j (0, 0)).1 * (polygon.getD i (0, 0)).2) 0
    |area| / 2

/-- `RIPENESS_CLASSES.get(class_id, f"Unknown_{class_id}")`. -/
def ripenessClassName (id : Int) : String :=
  if id = 0 then "Not Mature"
  else if id = 1 then "Mature"
  else if id = 2 then "Ripe"
  else if id = 3 then "Over Ripe"
  else "Unknown_" ++ toString id

/-- Association-list lookup with default: Python `d.get(k, v₀)`. -/
def dictGetD (d : List (String × ℕ)) (k : String) (v₀ : ℕ) : ℕ :=
  match d with
  | [] => v₀
  | (k₁, v) :: rest => if k₁ = k then v else dictGetD rest k v₀

/-- Association-list store: Python `d[k] = v` (existing key updated in
place, new key appended at the end). -/
def dictSet (d : List (String × ℕ)) (k : String) (v : ℕ) : List (String × ℕ) :=
  match d with
  | [] => [(k, v)]
  | (k₁, v₁) :: rest =>
    if k₁ = k then (k, v) :: rest else (k₁, v₁) :: dictSet rest k v

/-- Sum of the counter values of a dict. -/
def sumCounts (d : List (String × ℕ)) : ℕ := (d.map Prod.snd).sum

/-- The `ripeness_counts` loop of `_format_output`:
`ripeness_counts[name] = ripeness_counts.get(name, 0) + 1` per detection,
starting from the empty dict. -/
def ripenessCounts (detections : List BananaDetection) : List (String × ℕ) :=
  detections.foldl
    (fun counts d => dictSet counts d.class_name (dictGetD counts d.class_name 0 + 1))
    []

/-- The data successfully extracted from one raw YOLO box inside the
`try` block of `_process_predictions`: confidence, class id, corner-form
bbox, and the optional segmentation-mask polygon. -/
structure ParsedBox where
  conf : ℚ
  cls : Int
  x1 : ℚ
  y1 : ℚ
  x2 : ℚ
  y2 : ℚ
  mask : Option (List (ℚ × ℚ))
deriving Repr, DecidableEq

/-- One raw model record as seen by the per-record `try` block: either the
extracted fields, or the exception the tensor-library accessors raised on
a malformed record (`.error` is "processing this record raises"). -/
abbrev RawBox := Except String ParsedBox

/-- The body of the per-record loop of `_process_predictions`: on a
malformed record the exception is caught and the record skipped
(`none`); otherwise the polygon is the mask when present and nonempty,
else the four bbox corners; area, class name and quality score are then
computed and the `BananaDetection` built. -/
def processOne (ts : String) (raw : RawBox) : Option BananaDetection :=
  match raw with
  | Except.error _ => none
  | Except.ok box =>
    let polygon : List (ℚ × ℚ) :=
      match box.mask with
      | some coords => if coords.length > 0 then coords else []
      | none => []
    let polygon :=
      if polygon.isEmpty then
        [(box.x1, box.y1), (box.x2, box.y1), (box.x2, box.y2), (box.x1, box.y2)]
      else polygon
    let area := calculate_polygon_area polygon
    let class_name := ripenessClassName box.cls
    let d : BananaDetection :=
      { class_id := box.cls, class_name := class_name, confidence := box.conf
        polygon := polygon, x1 := box.x1, y1 := box.y1, x2 := box.x2, y2 := box.y2
        area := area, quality_score := 0, timestamp := ts }
    some { d with quality_score := calculate_quality_score d }

/-- `_process_predictions`: the loop appends each successfully processed
record and `continue`s past a failing one, i.e. it is a `filterMap`. An
absent/empty box list yields the empty detection list. -/
def process_predictions (ts : String) (raws : List RawBox) : List BananaDetection :=
  raws.filterMap (processOne ts)

/-- `_validate_detections`: keeps exactly the detections whose quality
validation returns accept. -/
def validate_detections (t : QualityThresholds) (detections : List BananaDetection) :
    List BananaDetection :=
  detections.filter (fun d => (validate_detection_quality t d).1)

/-- The shape of the input ndarray (`image.shape`). Pixel values play no
role in any verified property. -/
structure NDImage where
  shape : List ℕ
deriving Repr, DecidableEq

/-- `_validate_input_image`: rejects `None`, non-3-D arrays and arrays
whose third dimension is not 3; otherwise returns the image (the
BGR→RGB conversion preserves the shape). -/
def validate_input_image : Option NDImage → Except String NDImage
  | none => Except.error "Input image is None"
  | some img =>
    if img.shape.length ≠ 3 then Except.error "Expected 3D image array"
    else if img.shape.getD 2 0 ≠ 3 then Except.error "Expected RGB image with 3 channels"
    else Except.ok img

/-- `SagiTechModelManager` as `classify_bananas` observes it: the load
flag, the recorded model hash (absent when metadata is empty), and the
external model's behaviour on an image — the list of raw records it
returns, or the exception its `predict` raises. -/
structure ModelManager where
  is_loaded : Bool
  model_hash : Option String
  predictFn : NDImage → Except String (List RawBox)

/-- `model_metadata.get('hash', 'unknown')[:8]`. -/
def modelVersion (mgr : ModelManager) : String :=
  (mgr.model_hash.getD "unknown").take 8

/-- `_run_inference`: raises `RuntimeError("Model not loaded")` when the
manager is not loaded; otherwise the external model's outcome (its
exception is re-raised). -/
def run_inference (mgr : ModelManager) (img : NDImage) : Except String (List RawBox) :=
  if mgr.is_loaded = false then Except.error "Model not loaded"
  else mgr.predictFn img

/-- The `quality_metrics` dict built by `_format_output`. -/
structure QualityMetrics where
  total_detections : ℕ
  avg_confidence : ℚ
  avg_quality_score : ℚ
  detection_density : ℚ
deriving Repr, DecidableEq

/-- The `metadata` dict built by `_format_output` (the `config`
passthrough is represented by the thresholds actually read). -/
structure Metadata where
  image_shape : List ℕ
  model_version : String
  config : QualityThresholds
  ripeness_distribution : List (String × ℕ)
deriving Repr, DecidableEq

/-- `AnalysisResult`. The failure constructor of `classify_bananas` sets
`quality_metrics` and `metadata` to the empty dict, modelled as `none`. -/
structure AnalysisResult where
  success : Bool
  detections : List BananaDetection
  processing_time : ℚ
  model_version : String
  quality_metrics : Option QualityMetrics
  metadata : Option Metadata
  error_message : Option String
deriving Repr

/-- `np.mean` of a list of rationals (only ever applied to nonempty
lists, mirroring the `if detections else 0.0` guards of the source). -/
def npMean (l : List ℚ) : ℚ := l.sum / (l.length : ℚ)

/-- `_format_output`: quality metrics (averages guarded against the empty
list), the incrementally built ripeness distribution, metadata, and a
`success=True` result. -/
def format_output (mgr : ModelManager) (t : QualityThresholds)
    (detections : List BananaDetection) (img : NDImage) (elapsed : ℚ) :
    AnalysisResult :=
  let quality_metrics : QualityMetrics :=
    { total_detections := detections.length
      avg_confidence :=
        if detections.isEmpty then 0 else npMean (detections.map (·.confidence))
      avg_quality_score :=
        if detections.isEmpty then 0 else npMean (detections.map (·.quality_score))
      detection_density :=
        (detections.length : ℚ)
          / ((img.shape.getD 0 0 : ℚ) * (img.shape.getD 1 0 : ℚ)) * 1000000 }
  let metadata : Metadata :=
    { image_shape := img.shape
      model_version := modelVersion mgr
      config := t
      ripeness_distribution := ripenessCounts detections }
  { success := true
    detections := detections
    processing_time := elapsed
    model_version := modelVersion mgr
    quality_metrics := some quality_metrics
    metadata := some metadata
    error_message := none }

/-- The `except` branch of `classify_bananas`: empty, unsuccessful
result with the stringified exception. -/
def classifyFailure (elapsed : ℚ) (e : String) : AnalysisResult :=
  { success := false, detections := [], processing_time := elapsed
    model_version := "unknown", quality_metrics := none, metadata := none
    error_message := some e }

/-- `classify_bananas`: input validation, inference, post-processing,
quality filtering and output formatting inside one `try`; any raised
exception produces the failure result. `elapsed` stands for the
wall-clock `time.time() - self._start_time`; `ts` for the detection
timestamps. (The `performance_monitor.log_inference` side effect is
modelled separately by `PerformanceMonitor.log_inference`.) -/
def classify_bananas (mgr : ModelManager) (t : QualityThresholds)
    (image : Option NDImage) (elapsed : ℚ) (ts : String) : AnalysisResult :=
  match validate_input_image image with
  | Except.error e => classifyFailure elapsed e
  | Except.ok vimg =>
    match run_inference mgr vimg with
    | Except.error e => classifyFailure elapsed e
    | Except.ok raws =>
      format_output mgr t (validate_detections t (process_predictions ts raws))
        vimg elapsed

/-- `PerformanceMonitor` state. -/
structure PerformanceMonitor where
  inference_times : List ℚ
  class_distribution : List (String × ℕ)
  quality_scores : List ℚ
deriving Repr, DecidableEq

/-- Freshly constructed monitor (`__init__`). -/
def PerformanceMonitor.init : PerformanceMonitor :=
  { inference_times := [], class_distribution := [], quality_scores := [] }

/-- `log_inference`: appends the one processing-time sample, then per
detection increments the class histogram and appends its quality score. -/
def PerformanceMonitor.log_inference (m : PerformanceMonitor)
    (processing_time : ℚ) (detections : List BananaDetection) : PerformanceMonitor :=
  let m := { m with inference_times := m.inference_times ++ [processing_time] }
  detections.foldl
    (fun m d =>
      { m with
        class_distribution :=
          dictSet m.class_distribution d.class_name
            (dictGetD m.class_distribution d.class_name 0 + 1)
        quality_scores := m.quality_scores ++ [d.quality_score] })
    m

/-- Run a sequence of `log_inference` calls against a fresh monitor. -/
def runMonitor (calls : List (ℚ × List BananaDetection)) : PerformanceMonitor :=
  calls.foldl (fun m c => m.log_inference c.1 c.2) PerformanceMonitor.init

/-- One record of the legacy list format built by
`_convert_to_legacy_format`. -/
structure LegacyDetection where
  bbox : List ℚ
  ripeness : String
  confidence : ℚ
  polygon : List (ℚ × ℚ)
  area : ℚ
  quality_score : ℚ
deriving Repr, DecidableEq

/-- `_convert_to_legacy_format`. -/
def convert_to_legacy_format (r : AnalysisResult) : List LegacyDetection :=
  r.detections.map (fun d =>
    { bbox := [d.x1, d.y1, d.x2, d.y2], ripeness := d.class_name
      confidence := d.confidence, polygon := d.polygon
      area := d.area, quality_score := d.quality_score })

/-- `_legacy_error_format`: logs and returns the empty list. -/
def legacy_error_format (_msg : String) : List LegacyDetection := []

/-- `predict`: the outcome of `classify_bananas_from_path` (an
`AnalysisResult`, or an exception caught by `predict`'s own handler);
failure in either form yields the legacy error format. -/
def predict (outcome : Except String AnalysisResult) : List LegacyDetection :=
  match outcome with
  | Except.error e => legacy_error_format e
  | Except.ok result =>
    if result.success = false then
      legacy_error_format (result.error_message.getD "None")
    else convert_to_legacy_format result

/-! ### Spec-side definitions (used to compare the code against the
specification's wording) -/

/-- Modelled from the spec: the shoelace area as §4.4 words it — "half
the absolute value of the sum of cross products of consecutive vertex
coordinate pairs", the consecutive pairs being each vertex zipped with
its cyclic successor. -/
def shoelaceSpec (polygon : List (ℚ × ℚ)) : ℚ :=
  |((polygon.zip (polygon.rotate 1)).map
      (fun pq => pq.1.1 * pq.2.2 - pq.2.1 * pq.1.2)).sum| / 2

/-- Modelled from the spec: clipping a value to the interval [0,1]
(§4.5 "independently clipped-to-[0,1] sub-scores"). -/
def clip01 (x : ℚ) : ℚ := max 0 (min x 1)

/-- Modelled from the spec: the quality score as §4.5 words it — the mean
of the three sub-scores with two-sided clipping. -/
def quality_score_spec (d : BananaDetection) : ℚ :=
  (clip01 d.confidence + clip01 (d.area / 10000)
    + clip01 ((d.polygon.length : ℚ) / 8)) / 3

/-! ### Concrete instances used by counterexamples and witnesses -/

/-- A loaded detector whose model returns zero raw detections. -/
def mgrEmptyModel : ModelManager :=
  { is_loaded := true, model_hash := none
    predictFn := fun _ => Except.ok [] }

/-- A detector whose model never loaded. -/
def mgrNotLoaded : ModelManager :=
  { is_loaded := false, model_hash := none
    predictFn := fun _ => Except.ok [] }

/-- A 10×10 RGB image shape. -/
def imgSmall : NDImage := { shape := [10, 10, 3] }

/-- A completed classification call on a loaded model that returned zero
raw detections. -/
def emptyRun : AnalysisResult :=
  classify_bananas mgrEmptyModel defaultThresholds (some imgSmall) 0 "t"

/-- A raw record whose class id 7 is outside the fixed id set 0..3, with
high confidence and a large well-shaped box. -/
def box7 : ParsedBox :=
  { conf := 9/10, cls := 7, x1 := 0, y1 := 0, x2 := 100, y2 := 50, mask := none }

/-- `box7` wrapped as a successfully extracted raw record. -/
def rawUnknown : RawBox := Except.ok box7

/-- The detection `processOne` builds from `rawUnknown`: bbox-corner
polygon, shoelace area 5000, quality score (9/10 + 1/2 + 1/2)/3. -/
def det7 : BananaDetection :=
  { class_id := 7, class_name := "Unknown_7", confidence := 9/10
    polygon := [(0, 0), (100, 0), (100, 50), (0, 50)]
    x1 := 0, y1 := 0, x2 := 100, y2 := 50
    area := 5000, quality_score := 19/30, timestamp := "t" }

/-- A loaded detector whose model returns exactly the unknown-class raw
record. -/
def mgrUnknownModel : ModelManager :=
  { is_loaded := true, model_hash := none
    predictFn := fun _ => Except.ok [rawUnknown] }

/-- A completed classification call over `mgrUnknownModel`. -/
def unknownRun : AnalysisResult :=
  classify_bananas mgrUnknownModel defaultThresholds (some imgSmall) 0 "t"

/-- A detection whose confidence is below the default threshold. -/
def lowDet : BananaDetection := { det7 with confidence := 1/2 }

/-- A (synthetic) detection with negative confidence, separating one-sided
from two-sided clipping in the quality score. -/
def negDet : BananaDetection :=
  { class_id := 0, class_name := "Not Mature", confidence := -3
    polygon := [], x1 := 0, y1 := 0, x2 := 0, y2 := 0
    area := 0, quality_score := 0, timestamp := "t" }

/-! ### Helper lemmas -/

lemma foldl_add_sub (f g : ℕ → ℚ) :
    ∀ (l : List ℕ) (c : ℚ),
      l.foldl (fun a i => a + f i - g i) c = c + (l.map (fun i => f i - g i)).sum
  | [], c => by simp
  | x :: xs, c => by
    simp only [List.foldl_cons, List.map_cons, List.sum_cons]
    rw [foldl_add_sub f g xs (c + f x - g x)]
    ring

lemma zip_rotate_eq_map_range (l : List (ℚ × ℚ)) (hl : l ≠ []) :
    l.zip (l.rotate 1) =
      (List.range l.length).map
        (fun i => (l.getD i (0, 0), l.getD ((i + 1) % l.length) (0, 0))) := by
  apply List.ext_getElem
  · simp
  · intro i h1 h2
    have hlen : (l.zip (l.rotate 1)).length = l.length := by simp
    have hi : i < l.length := by simpa [hlen] using h1
    have hmod : (i + 1) % l.length < l.length :=
      Nat.mod_lt _ (List.length_pos.mpr hl)
    rw [List.getElem_zip]
    rw [List.getElem_map, List.getElem_range]
    rw [List.getElem_rotate]
    rw [List.getD_eq_getElem l (0, 0) hi, List.getD_eq_getElem l (0, 0) hmod]

lemma shoelace_eq (poly : List (ℚ × ℚ)) (h : 3 ≤ poly.length) :
    calculate_polygon_area poly = shoelaceSpec poly := by
  have hne : poly ≠ [] := by
    intro e
    rw [e] at h
    simp at h
  simp only [calculate_polygon_area]
  rw [if_neg (by omega)]
  rw [foldl_add_sub
    (fun i => (poly.getD i (0, 0)).1 * (poly.getD ((i + 1) % poly.length) (0, 0)).2)
    (fun i => (poly.getD ((i + 1) % poly.length) (0, 0)).1 * (poly.getD i (0, 0)).2)]
  rw [shoelaceSpec, zip_rotate_eq_map_range poly hne, List.map_map]
  simp only [Function.comp_def, zero_add]

lemma sumCounts_cons (p : String × ℕ) (d : List (String × ℕ)) :
    sumCounts (p :: d) = p.2 + sumCounts d := by
  simp [sumCounts]

lemma sumCounts_incr : ∀ (d : List (String × ℕ)) (k : String),
    sumCounts (dictSet d k (dictGetD d k 0 + 1)) = sumCounts d + 1
  | [], k => by simp [dictSet, dictGetD, sumCounts]
  | (k₁, v) :: rest, k => by
    by_cases hk : k₁ = k
    · subst hk
      simp [dictSet, dictGetD, sumCounts]
      omega
    · simp only [dictSet, dictGetD, if_neg hk]
      rw [sumCounts_cons, sumCounts_cons, sumCounts_incr rest k]
      omega

lemma mem_keys_dictSet : ∀ (d : List (String × ℕ)) (k : String) (v : ℕ) (k₀ : String),
    k₀ ∈ (dictSet d k v).map Prod.fst ↔ k₀ = k ∨ k₀ ∈ d.map Prod.fst
  | [], k, v, k₀ => by simp [dictSet]
  | (k₁, v₁) :: rest, k, v, k₀ => by
    by_cases hk : k₁ = k
    · subst hk
      simp [dictSet]
    · simp only [dictSet, if_neg hk, List.map_cons, List.mem_cons]
      rw [mem_keys_dictSet rest k v k₀]
      tauto

lemma ripenessCounts_invariant :
    ∀ (dets : List BananaDetection) (acc : List (String × ℕ)),
      sumCounts (dets.foldl
        (fun counts d => dictSet counts d.class_name (dictGetD counts d.class_name 0 + 1))
        acc) = sumCounts acc + dets.length ∧
      ∀ k, k ∈ (dets.foldl
        (fun counts d => dictSet counts d.class_name (dictGetD counts d.class_name 0 + 1))
        acc).map Prod.fst ↔ k ∈ acc.map Prod.fst ∨ k ∈ dets.map (·.class_name)
  | [], acc => by simp
  | d :: ds, acc => by
    simp only [List.foldl_cons, List.map_cons, List.mem_cons]
    obtain ⟨h1, h2⟩ :=
      ripenessCounts_invariant ds (dictSet acc d.class_name (dictGetD acc d.class_name 0 + 1))
    refine ⟨?_, ?_⟩
    · rw [h1, sumCounts_incr]
      simp only [List.length_cons]
      omega
    · intro k
      rw [h2 k, mem_keys_dictSet]
      tauto


lemma monitor_fold :
    ∀ (dets : List BananaDetection) (m : PerformanceMonitor),
      sumCounts ((dets.foldl
        (fun m d =>
          { m with
            class_distribution :=
              dictSet m.class_distribution d.class_name
                (dictGetD m.class_distribution d.class_name 0 + 1)
            quality_scores := m.quality_scores ++ [d.quality_score] })
        m).class_distribution)
          = sumCounts m.class_distribution + dets.length ∧
      (dets.foldl
        (fun m d =>
          { m with
            class_distribution :=
              dictSet m.class_distribution d.class_name
                (dictGetD m.class_distribution d.class_name 0 + 1)
            quality_scores := m.quality_scores ++ [d.quality_score] })
        m).quality_scores.length = m.quality_scores.length + dets.length ∧
      (dets.foldl
        (fun m d =>
          { m with
            class_distribution :=
              dictSet m.class_distribution d.class_name
                (dictGetD m.class_distribution d.class_name 0 + 1)
            quality_scores := m.quality_scores ++ [d.quality_score] })
        m).inference_times = m.inference_times
  | [], m => by simp
  | d :: ds, m => by
    simp only [List.foldl_cons, List.length_cons]
    obtain ⟨h1, h2, h3⟩ := monitor_fold ds
      { m with
        class_distribution :=
          dictSet m.class_distribution d.class_name
            (dictGetD m.class_distribution d.class_name 0 + 1)
        quality_scores := m.quality_scores ++ [d.quality_score] }
    refine ⟨?_, ?_, ?_⟩
    · rw [h1]
      simp [sumCounts_incr]
      omega
    · rw [h2]
      simp
      omega
    · rw [h3]

lemma log_inference_effect (m : PerformanceMonitor) (t : ℚ)
    (dets : List BananaDetection) :
    sumCounts ((m.log_inference t dets).class_distribution)
        = sumCounts m.class_distribution + dets.length ∧
    (m.log_inference t dets).quality_scores.length
        = m.quality_scores.length + dets.length ∧
    (m.log_inference t dets).inference_times = m.inference_times ++ [t] := by
  simp only [PerformanceMonitor.log_inference]
  obtain ⟨h1, h2, h3⟩ := monitor_fold dets { m with inference_times := m.inference_times ++ [t] }
  exact ⟨h1, h2, h3⟩

lemma runMonitor_aux :
    ∀ (calls : List (ℚ × List BananaDetection)) (m : PerformanceMonitor),
      sumCounts m.class_distribution = m.quality_scores.length →
      sumCounts ((calls.foldl (fun m c => m.log_inference c.1 c.2) m).class_distribution)
          = (calls.foldl (fun m c => m.log_inference c.1 c.2) m).quality_scores.length ∧
      (calls.foldl (fun m c => m.log_inference c.1 c.2) m).inference_times.length
          = m.inference_times.length + calls.length
  | [], m => by simp
  | c :: cs, m => by
    intro hm
    simp only [List.foldl_cons, List.length_cons]
    obtain ⟨e1, e2, e3⟩ := log_inference_effect m c.1 c.2
    obtain ⟨h1, h2⟩ := runMonitor_aux cs (m.log_inference c.1 c.2) (by rw [e1, e2, hm])
    refine ⟨h1, ?_⟩
    rw [h2, e3]
    simp
    omega


/-- C3: if the model is not loaded, `classify_bananas` never raises: every
call returns an `AnalysisResult` with `success = false`, an empty
detection list, and `error_message` set. -/
theorem C3_not_loaded_returns_failure (mgr : ModelManager) (t : QualityThresholds)
    (image : Option NDImage) (elapsed : ℚ) (ts : String)
    (h : mgr.is_loaded = false) :
    (classify_bananas mgr t image elapsed ts).success = false ∧
    (classify_bananas mgr t image elapsed ts).detections = [] ∧
    (classify_bananas mgr t image elapsed ts).error_message.isSome = true := by
  cases hv : validate_input_image image with
  | error e => simp [classify_bananas, hv, classifyFailure]
  | ok vimg => simp [classify_bananas, hv, run_inference, h, classifyFailure]

/-- C3 witness: a never-loaded detector on a valid 10×10×3 image. -/
theorem C3_witness :
    (classify_bananas mgrNotLoaded defaultThresholds (some imgSmall) 0 "t").success = false ∧
    (classify_bananas mgrNotLoaded defaultThresholds (some imgSmall) 0 "t").detections = [] ∧
    (classify_bananas mgrNotLoaded defaultThresholds (some imgSmall) 0 "t").error_message.isSome
      = true :=
  C3_not_loaded_returns_failure mgrNotLoaded defaultThresholds (some imgSmall) 0 "t" rfl

/-- C8: an exception while processing a single raw record never propagates
out of `_process_predictions`; the failing record alone is skipped and
every other record in the same call is still processed. -/
theorem C8_per_record_isolation (ts : String) (xs ys : List RawBox) (e : String) :
    process_predictions ts (xs ++ Except.error e :: ys)
      = process_predictions ts xs ++ process_predictions ts ys := by
  simp [process_predictions, List.filterMap_append, List.filterMap_cons, processOne]

/-- C10: the legacy `predict` returns the empty list whenever the
underlying analysis fails — by raising or by returning `success = false` —
and a failed call is indistinguishable from a successful analysis with
zero detections; no error message is exposed. -/
theorem C10_legacy_failure_empty (e : String) (r : AnalysisResult) :
    predict (Except.error e) = [] ∧
    (r.success = false → predict (Except.ok r) = []) ∧
    (r.success = true → r.detections = [] →
      predict (Except.ok r) = predict (Except.error e)) := by
  refine ⟨rfl, ?_, ?_⟩
  · intro h
    simp [predict, h, legacy_error_format]
  · intro h1 h2
    simp [predict, h1, h2, legacy_error_format, convert_to_legacy_format]

/-- C10 witness: a raised exception, a failed result, and the empty-run
result all map to the empty legacy list. -/
theorem C10_witness :
    predict (Except.error "boom") = [] ∧
    predict (Except.ok (classifyFailure 0 "boom")) = [] ∧
    predict (Except.ok emptyRun) = predict (Except.error "boom") :=
  ⟨(C10_legacy_failure_empty "boom" (classifyFailure 0 "boom")).1,
   (C10_legacy_failure_empty "boom" (classifyFailure 0 "boom")).2.1 rfl,
   (C10_legacy_failure_empty "boom" emptyRun).2.2 rfl rfl⟩

/-- C9: from a fresh `PerformanceMonitor`, after any sequence of
`log_inference` calls the class-histogram counts sum to the number of
stored quality-score samples, and each call appends exactly one
processing-time sample regardless of its detection count. -/
theorem C9_monitor_invariant (calls : List (ℚ × List BananaDetection))
    (m : PerformanceMonitor) (t : ℚ) (dets : List BananaDetection) :
    sumCounts (runMonitor calls).class_distribution
        = (runMonitor calls).quality_scores.length ∧
    (runMonitor calls).inference_times.length = calls.length ∧
    (m.log_inference t dets).inference_times = m.inference_times ++ [t] := by
  obtain ⟨h1, h2⟩ := runMonitor_aux calls PerformanceMonitor.init (by simp [PerformanceMonitor.init, sumCounts])
    
  exact ⟨h1, by simpa [PerformanceMonitor.init, runMonitor] using h2,
    (log_inference_effect m t dets).2.2⟩


/-- C5: for every polygon of at least 3 vertices,
`_calculate_polygon_area` is half the absolute value of the shoelace sum
of cross products over consecutive (cyclic) vertex pairs; fewer than 3
vertices yield 0; the unit square yields area 1. -/
theorem C5_shoelace_area (poly : List (ℚ × ℚ)) :
    (3 ≤ poly.length → calculate_polygon_area poly = shoelaceSpec poly) ∧
    (poly.length < 3 → calculate_polygon_area poly = 0) ∧
    calculate_polygon_area [(0, 0), (1, 0), (1, 1), (0, 1)] = 1 := by
  refine ⟨shoelace_eq poly, ?_, ?_⟩
  · intro h
    simp [calculate_polygon_area, h]
  · simp [calculate_polygon_area, List.range_succ]
    norm_num

/-- C5 witness: the unit square, which has 4 ≥ 3 vertices. -/
theorem C5_witness :
    3 ≤ ([(0, 0), (1, 0), (1, 1), (0, 1)] : List (ℚ × ℚ)).length ∧
    calculate_polygon_area [(0, 0), (1, 0), (1, 1), (0, 1)]
      = shoelaceSpec [(0, 0), (1, 0), (1, 1), (0, 1)] ∧
    calculate_polygon_area [(0, 0), (1, 0), (1, 1), (0, 1)] = 1 :=
  ⟨by simp,
   (C5_shoelace_area [(0, 0), (1, 0), (1, 1), (0, 1)]).1 (by simp),
   (C5_shoelace_area []).2.2⟩

/-- C6: an empty accepted-detection list yields an `AnalysisResult` with
an empty detection list and `avg_confidence = 0` and
`avg_quality_score = 0` (the exact value 0, no division by zero); in
particular a loaded model returning zero raw detections produces exactly
that result. -/
theorem C6_empty_means_zero_averages (mgr : ModelManager) (t : QualityThresholds)
    (img : NDImage) (elapsed : ℚ) (ts : String) :
    ((format_output mgr t [] img elapsed).detections = [] ∧
     (format_output mgr t [] img elapsed).quality_metrics.map QualityMetrics.avg_confidence
        = some 0 ∧
     (format_output mgr t [] img elapsed).quality_metrics.map QualityMetrics.avg_quality_score
        = some 0) ∧
    (mgr.is_loaded = true → mgr.predictFn img = Except.ok [] →
     img.shape.length = 3 → img.shape.getD 2 0 = 3 →
       classify_bananas mgr t (some img) elapsed ts = format_output mgr t [] img elapsed) := by
  refine ⟨⟨rfl, by simp [format_output], by simp [format_output]⟩, ?_⟩
  intro h1 h2 h3 h4
  have hv : validate_input_image (some img) = Except.ok img := by
    simp only [validate_input_image, h3, h4]
    norm_num
  have hr : run_inference mgr img = Except.ok [] := by
    simp [run_inference, h1, h2]
  simp [classify_bananas, hv, hr, process_predictions, validate_detections]

/-- C6 witness: the loaded zero-detection model on the 10×10×3 image. -/
theorem C6_witness :
    ((format_output mgrEmptyModel defaultThresholds [] imgSmall 0).detections = [] ∧
     (format_output mgrEmptyModel defaultThresholds [] imgSmall 0).quality_metrics.map
        QualityMetrics.avg_confidence = some 0 ∧
     (format_output mgrEmptyModel defaultThresholds [] imgSmall 0).quality_metrics.map
        QualityMetrics.avg_quality_score = some 0) ∧
    classify_bananas mgrEmptyModel defaultThresholds (some imgSmall) 0 "t"
      = format_output mgrEmptyModel defaultThresholds [] imgSmall 0 :=
  ⟨(C6_empty_means_zero_averages mgrEmptyModel defaultThresholds imgSmall 0 "t").1,
   (C6_empty_means_zero_averages mgrEmptyModel defaultThresholds imgSmall 0 "t").2
     rfl rfl rfl rfl⟩


/-- C4: `validate_detection_quality` accepts iff none of the four reject
conditions holds (low confidence, fewer than 3 polygon vertices, small
area, excessive width/height aspect ratio — the same threshold applying
to every category), and a rejected detection is absent from the filtered
detection list and from the aggregates, which are computed from the
filtered list only. -/
theorem C4_validation_accept_iff (t : QualityThresholds) (d : BananaDetection)
    (dets : List BananaDetection) (mgr : ModelManager) (img : NDImage) (elapsed : ℚ) :
    ((validate_detection_quality t d).1 = true ↔
      (¬ d.confidence < t.min_confidence ∧ ¬ d.polygon.length < 3 ∧
       ¬ d.area < t.min_polygon_area ∧
       ¬ (if d.y2 - d.y1 > 0 then (d.x2 - d.x1) / (d.y2 - d.y1) else 0) > t.max_aspect)) ∧
    ((validate_detection_quality t d).1 = false → d ∉ validate_detections t dets) ∧
    validate_detections t dets = dets.filter (fun x => (validate_detection_quality t x).1) ∧
    (format_output mgr t (validate_detections t dets) img elapsed).detections
      = validate_detections t dets ∧
    (format_output mgr t (validate_detections t dets) img elapsed).metadata.map
        Metadata.ripeness_distribution
      = some (ripenessCounts (validate_detections t dets)) := by
  refine ⟨?_, ?_, rfl, rfl, rfl⟩
  · simp only [validate_detection_quality]
    split_ifs with h1 h2 h3 h4 <;> simp_all
  · intro hfalse hmem
    rw [validate_detections, List.mem_filter] at hmem
    rw [hfalse] at hmem
    simp at hmem

/-- C4 witness: a detection with confidence 1/2 below the default 3/4
threshold is rejected and absent from the filtered list. -/
theorem C4_witness :
    (validate_detection_quality defaultThresholds lowDet).1 = false ∧
    lowDet ∉ validate_detections defaultThresholds [lowDet] := by
  have hfalse : (validate_detection_quality defaultThresholds lowDet).1 = false := by
    norm_num [validate_detection_quality, defaultThresholds, lowDet, det7]
  exact ⟨hfalse,
    (C4_validation_accept_iff defaultThresholds lowDet [lowDet] mgrEmptyModel imgSmall 0).2.1
      hfalse⟩


/-- C1 counterexample: a completed classification whose model returned no
detections produces `ripeness_distribution = {}` — zero keys, not the 4
fixed ripeness keys; in particular "Not Mature" is absent. -/
theorem C1_counterexample :
    emptyRun.success = true ∧
    emptyRun.metadata.map Metadata.ripeness_distribution = some [] ∧
    emptyRun.metadata.map
        (fun md => (md.ripeness_distribution.map Prod.fst).contains "Not Mature")
      = some false := by
  refine ⟨rfl, rfl, rfl⟩

/-- C1 (amended): `ripeness_distribution` is built incrementally from the
accepted detections: its keys are exactly the class names occurring among
them (not a fixed zero-initialized 4-key map), and the sum of its counts
equals the number of accepted detections. -/
theorem C1_distribution_keys_and_sum (mgr : ModelManager) (t : QualityThresholds)
    (dets : List BananaDetection) (img : NDImage) (elapsed : ℚ) :
    (format_output mgr t dets img elapsed).metadata.map Metadata.ripeness_distribution
      = some (ripenessCounts dets) ∧
    sumCounts (ripenessCounts dets) = dets.length ∧
    ∀ k, k ∈ (ripenessCounts dets).map Prod.fst ↔ k ∈ dets.map (·.class_name) := by
  obtain ⟨h1, h2⟩ := ripenessCounts_invariant dets []
  refine ⟨rfl, ?_, ?_⟩
  · rw [ripenessCounts, h1]
    simp [sumCounts]
  · intro k
    rw [ripenessCounts, h2 k]
    simp

/-- C7 counterexample: on a detection with confidence −3 the code returns
the mean of one-sidedly capped sub-scores, −1, while the mean of
clipped-to-[0,1] sub-scores claimed by the spec is 0. -/
theorem C7_counterexample :
    calculate_quality_score negDet = -1 ∧ quality_score_spec negDet = 0 := by
  constructor
  · norm_num [calculate_quality_score, negDet]
  · norm_num [quality_score_spec, clip01, negDet]

/-- C7 (amended): the quality score is the mean of three sub-scores each
capped above at 1 by `min(·, 1)` (no clipping below at 0); consequently,
for confidence in [0,1] and area ≥ 0 (the vertex count being a natural
number), the score lies in [0,1]. -/
theorem C7_quality_score_capped_mean (d : BananaDetection) :
    calculate_quality_score d
      = (min d.confidence 1 + min (d.area / 10000) 1
          + min ((d.polygon.length : ℚ) / 8) 1) / 3 ∧
    (0 ≤ d.confidence → d.confidence ≤ 1 → 0 ≤ d.area →
      0 ≤ calculate_quality_score d ∧ calculate_quality_score d ≤ 1) := by
  refine ⟨rfl, ?_⟩
  intro h0 h1 ha
  have c1 : min d.confidence 1 ≤ 1 := min_le_right _ _
  have c0 : 0 ≤ min d.confidence 1 := le_min h0 zero_le_one
  have a1 : min (d.area / 10000) 1 ≤ 1 := min_le_right _ _
  have a0 : 0 ≤ min (d.area / 10000) 1 := le_min (by positivity) zero_le_one
  have p1 : min ((d.polygon.length : ℚ) / 8) 1 ≤ 1 := min_le_right _ _
  have p0 : 0 ≤ min ((d.polygon.length : ℚ) / 8) 1 := le_min (by positivity) zero_le_one
  rw [calculate_quality_score]
  constructor <;> [linarith; linarith]

/-- C7 witness: the accepted high-confidence detection `det7`
(confidence 9/10, area 5000) has its score in [0,1]. -/
theorem C7_witness :
    calculate_quality_score det7
      = (min det7.confidence 1 + min (det7.area / 10000) 1
          + min ((det7.polygon.length : ℚ) / 8) 1) / 3 ∧
    (0 ≤ calculate_quality_score det7 ∧ calculate_quality_score det7 ≤ 1) :=
  ⟨(C7_quality_score_capped_mean det7).1,
   (C7_quality_score_capped_mean det7).2 (by norm_num [det7]) (by norm_num [det7])
     (by norm_num [det7])⟩


/-- C2 counterexample: a raw detection with class id 7 (outside 0..3) and
good quality is not excluded: the completed call keeps it in the final
detection list under the name "Unknown_7" and counts it in the
ripeness-distribution aggregate. -/
theorem C2_counterexample :
    unknownRun.success = true ∧
    unknownRun.detections.map (fun d => d.class_id) = [7] ∧
    unknownRun.detections.map (fun d => d.class_name) = ["Unknown_7"] ∧
    unknownRun.metadata.map Metadata.ripeness_distribution = some [("Unknown_7", 1)] := by
  have hp : processOne "t" rawUnknown = some det7 := by
    norm_num [processOne, rawUnknown, box7, calculate_polygon_area, List.range_succ,
      ripenessClassName, calculate_quality_score, det7, min_def]
    rfl
  have hv : (validate_detection_quality defaultThresholds det7).1 = true := by
    norm_num [validate_detection_quality, defaultThresholds, det7]
  have hrun : unknownRun
      = format_output mgrUnknownModel defaultThresholds [det7] imgSmall 0 := by
    simp [unknownRun, classify_bananas, validate_input_image, imgSmall, run_inference,
      mgrUnknownModel, process_predictions, hp, validate_detections, hv]
  rw [hrun]
  refine ⟨rfl, rfl, rfl, rfl⟩

/-- C2 (amended): the mapper never errors — a raw record with any class
id is processed, an id outside 0..3 receiving the name `Unknown_{id}` —
but such a detection is not excluded downstream: quality validation
ignores the class entirely, so it is retained (in the detection list and
the aggregates) exactly when its quality passes. -/
theorem C2_unknown_ids_kept (box : ParsedBox) (ts : String) (t : QualityThresholds)
    (d : BananaDetection) (id : Int) (name : String) :
    (processOne ts (Except.ok box)).isSome = true ∧
    (¬ (box.cls = 0 ∨ box.cls = 1 ∨ box.cls = 2 ∨ box.cls = 3) →
      (processOne ts (Except.ok box)).map (fun x => x.class_name)
        = some ("Unknown_" ++ toString box.cls)) ∧
    (validate_detection_quality t { d with class_id := id, class_name := name }).1
      = (validate_detection_quality t d).1 := by
  refine ⟨rfl, ?_, rfl⟩
  intro h
  have h0 : box.cls ≠ 0 := fun e => h (Or.inl e)
  have h1 : box.cls ≠ 1 := fun e => h (Or.inr (Or.inl e))
  have h2 : box.cls ≠ 2 := fun e => h (Or.inr (Or.inr (Or.inl e)))
  have h3 : box.cls ≠ 3 := fun e => h (Or.inr (Or.inr (Or.inr e)))
  simp [processOne, ripenessClassName, h0, h1, h2, h3]

/-- C2 witness: class id 7 is outside the fixed set and is mapped to
"Unknown_7" without error. -/
theorem C2_witness :
    (processOne "t" (Except.ok box7)).isSome = true ∧
    (processOne "t" (Except.ok box7)).map (fun x => x.class_name) = some "Unknown_7" :=
  ⟨(C2_unknown_ids_kept box7 "t" defaultThresholds det7 7 "Unknown_7").1,
   (C2_unknown_ids_kept box7 "t" defaultThresholds det7 7 "Unknown_7").2.1 (by decide)⟩

end SagiTech
